import Mathlib

/-!
Shallow embedding of the navigation/registry core of the shader test module
(`src/lib.rs`, `src/array.rs`, `src/text.rs`, `src/input_handlers.rs`).

Modelling conventions:
* Rust `usize` ids become `Nat`; Rust `isize` index arithmetic becomes `Int`
  with `Int.tmod` for Rust's truncated `%`.
* Fallible code (Rust `unwrap` / `Result`) becomes `Option` / `Except`; a
  `none` result of a step function models a process panic.
* ECS side effects (spawn/despawn of text, underline and marker entities,
  enabling/disabling systems, postprocess removal) are modelled as explicit
  fields of a `World` record.  Floating-point positional data of spawned
  entities is not modelled; an underline is identified by the label text it
  is placed under, which is how the source relocates it (string equality
  against `TextRender` text).
-/

namespace ShaderTest

/-- The closed category set from `MaterialType` (source uses exactly
`Sprite` and `PostProcessing`). -/
inductive MaterialType
  | Sprite
  | PostProcessing
deriving DecidableEq, Repr

/-- Embeds `title_from_material_type` from `src/text.rs`. -/
def title_from_material_type : MaterialType → String
  | .Sprite => "Sprite Material"
  | .PostProcessing => "Post Processing Material"

/-- Embeds the newtype `MaterialTestId(usize)`. -/
structure MaterialTestId where
  id : Nat
deriving DecidableEq, Repr

/-- Embeds `MaterialTestId::increment_id`. -/
def MaterialTestId.increment_id (t : MaterialTestId) : MaterialTestId :=
  ⟨t.id + 1⟩

/-- Text asset identity (external `TextId`), modelled as a `Nat` newtype. -/
structure TextId where
  id : Nat
deriving DecidableEq, Repr

/-- Material asset identity (external `MaterialId`), modelled as a `Nat`
newtype. -/
structure MaterialId where
  id : Nat
deriving DecidableEq, Repr

/-- Texture asset identity (external `TextureId`), modelled as a `Nat`
newtype. -/
structure TextureId where
  id : Nat
deriving DecidableEq, Repr

/-- Pipeline asset identity (external), modelled as a `Nat` newtype. -/
structure PipelineId where
  id : Nat
deriving DecidableEq, Repr

/-- The sentinel text id (external constant `MISSING_TEXT_ID`).  Its concrete
value is opaque in the source; only its fixedness is used. -/
def MISSING_TEXT_ID : TextId := ⟨1⟩

/-- Embeds the error type `MaterialIdAlreadySet`. -/
inductive MaterialIdAlreadySet
  | mk
deriving DecidableEq, Repr

/-- Embeds `MaybeLoadedMaterial` (a load slot): a material category, an
optional resolved material id, and the text id whose resolution fills the
slot. -/
structure MaybeLoadedMaterial where
  material_type : MaterialType
  material_id : Option MaterialId
  text_id : TextId
deriving DecidableEq, Repr

/-- Embeds `MaybeLoadedMaterial::default()`. -/
def MaybeLoadedMaterial.default_slot : MaybeLoadedMaterial :=
  { material_type := .Sprite, material_id := none, text_id := MISSING_TEXT_ID }

/-- Embeds `MaybeLoadedMaterial::set_material_id`: errors (without change)
when the slot is already resolved, otherwise stores the id. -/
def MaybeLoadedMaterial.set_material_id (m : MaybeLoadedMaterial)
    (material_id : MaterialId) : Except MaterialIdAlreadySet MaybeLoadedMaterial :=
  if m.material_id.isSome then
    .error .mk
  else
    .ok { m with material_id := some material_id }

/-- Embeds `MaterialTest` (the registered-test record).  The fixed
`[u8; 256]` name buffers are modelled as `String`s; the `[MaybeLoadedMaterial; 25]`
slot array as a list. -/
structure MaterialTest where
  id : MaterialTestId
  name : String
  maybe_loaded_materials : List MaybeLoadedMaterial
  material_type : MaterialType
  startup_system_name : String
deriving DecidableEq, Repr

/-- Embeds the slot-update loop body of
`MaterialTest::update_maybe_loaded_materials`: walk the slots in order,
stop at the first untouched sentinel slot, and on a text-id match call
`set_material_id`, keeping the slot unchanged (with a logged warning) when
it was already resolved. -/
def update_slots : List MaybeLoadedMaterial → TextId → MaterialId →
    List MaybeLoadedMaterial
  | [], _, _ => []
  | m :: rest, text_id, material_id =>
    if m.text_id = MISSING_TEXT_ID ∧ m.material_id = none then
      m :: rest
    else
      (if m.text_id = text_id then
        match m.set_material_id material_id with
        | .ok updated => updated
        | .error _ => m
      else m) :: update_slots rest text_id material_id

/-- Embeds `MaterialTest::update_maybe_loaded_materials`. -/
def MaterialTest.update_maybe_loaded_materials (t : MaterialTest)
    (text_id : TextId) (material_id : MaterialId) : MaterialTest :=
  { t with maybe_loaded_materials :=
      update_slots t.maybe_loaded_materials text_id material_id }

/-- Embeds the resource `MaterialTestIdHolder` (test registry): the next
sequential id and the list of claimed display names. -/
structure MaterialTestIdHolder where
  next_id : MaterialTestId
  taken_test_names : List String
deriving DecidableEq, Repr

/-- Embeds `MaterialTestIdHolder::default()`. -/
def MaterialTestIdHolder.default_holder : MaterialTestIdHolder :=
  { next_id := ⟨0⟩, taken_test_names := [] }

/-- Embeds `MaterialTestIdHolder::get_next_id`: return the current id and
advance the counter. -/
def MaterialTestIdHolder.get_next_id (h : MaterialTestIdHolder) :
    MaterialTestId × MaterialTestIdHolder :=
  let next_id := h.next_id
  (next_id, { h with next_id := next_id.increment_id })

/-- Length bound used for the termination measure of `validate_new_name`. -/
def maxNameLen (names : List String) : Nat :=
  names.foldr (fun s acc => max s.length acc) 0

theorem length_le_maxNameLen {s : String} {names : List String}
    (h : s ∈ names) : s.length ≤ maxNameLen names := by
  induction names with
  | nil => cases h
  | cons a rest ih =>
    rcases List.mem_cons.mp h with rfl | h'
    · exact Nat.le_max_left _ _
    · exact Nat.le_trans (ih h') (Nat.le_max_right _ _)

/-- Embeds `MaterialTestIdHolder::validate_new_name`: while the desired name
is taken, retry with a `"0"` appended; once free, record and return it.
Terminates because each retry lengthens the name past the longest taken
name. -/
def MaterialTestIdHolder.validate_new_name (h : MaterialTestIdHolder)
    (desired_name : String) : String × MaterialTestIdHolder :=
  if hmem : desired_name ∈ h.taken_test_names then
    h.validate_new_name (desired_name ++ "0")
  else
    (desired_name,
      { h with taken_test_names := h.taken_test_names ++ [desired_name] })
termination_by maxNameLen h.taken_test_names + 1 - desired_name.length
decreasing_by
  have hle := length_le_maxNameLen hmem
  have hlen : (desired_name ++ "0").length = desired_name.length + 1 := by
    rw [String.length_append]
    rfl
  omega

/-- A sequence of name claims (`validate_new_name` calls) in request order,
returning the claimed names. -/
def claim_names : MaterialTestIdHolder → List String → List String
  | _, [] => []
  | h, d :: ds =>
    let r := h.validate_new_name d
    r.1 :: claim_names r.2 ds

/-- A sequence of `get_next_id` calls, returning the issued ids in order. -/
def issue_ids : MaterialTestIdHolder → Nat → List MaterialTestId
  | _, 0 => []
  | h, n + 1 =>
    let r := h.get_next_id
    r.1 :: issue_ids r.2 n

/-- The base name with the fixed suffix `"0"` appended `k` times, mirroring
the retry chain of `validate_new_name`. -/
def appendZeros (d : String) : Nat → String
  | 0 => d
  | k + 1 => appendZeros (d ++ "0") k

/-- Embeds `wrap_index` from `src/lib.rs`: Rust's truncated `%` on `isize`
is `Int.tmod`, and the final `as usize` cast is `Int.toNat` (the value is
non-negative for a positive length). -/
def wrap_index (index : Int) (array_len : Nat) : Nat :=
  (((index.tmod (array_len : Int)) + (array_len : Int)).tmod
    (array_len : Int)).toNat

/-- Embeds `TransitionTo` (the pending transition request). -/
inductive TransitionTo
  | Loading
  | MainView
  | MaterialSelection (material_type : MaterialType)
      (selected : Option MaterialTestId)
  | Material (material_type : MaterialType) (test_id : MaterialTestId)
deriving DecidableEq, Repr

/-- Embeds `ViewState`. -/
inductive ViewState
  | Loading
  | MainView (material_type : MaterialType)
  | MaterialSelection (material_type : MaterialType)
      (selected : Option MaterialTestId) (order : List MaterialTestId)
  | Material (test_id : MaterialTestId) (name : String)
deriving DecidableEq, Repr

/-- Embeds the resource `View`. -/
structure View where
  transitioning_to : Option TransitionTo
  view_state : ViewState
  esc_transition : Option TransitionTo
  post_load_transition : Option TransitionTo
deriving DecidableEq, Repr

/-- Embeds `View::default()`. -/
def View.default_view : View :=
  { transitioning_to := some .Loading, view_state := .Loading,
    esc_transition := none, post_load_transition := none }

/-- Embeds `View::set_transition_to` (the system-enable side effect is
scheduling, represented by `change_view` being run on the pending
request). -/
def View.set_transition_to (v : View) (new_transitioning_to : TransitionTo) :
    View :=
  { v with transitioning_to := some new_transitioning_to }

/-- Embeds `View::clear_transitioning_to`. -/
def View.clear_transitioning_to (v : View) : View :=
  { v with transitioning_to := none }

/-- A spawned navigation-chrome entity: noninteractive text (headers and
the loading label), interactive selectable text carrying its transition,
or the underline highlight marker recorded by the label it sits under. -/
inductive UIEntity
  | noninteractive_text (label : String)
  | interactive_text (label : String) (target : TransitionTo)
  | underline_marker (under_label : String)
deriving DecidableEq, Repr

/-- The object-store state visible to the navigation core: the `View`
resource, the registry of `MaterialTest` entities (in registration order),
the spawned chrome entities, the count of `MaterialTestObject` entities,
the active postprocess material ids, and the names of enabled test startup
systems. -/
structure World where
  view : View
  tests : List MaterialTest
  ui : List UIEntity
  material_test_objects : Nat
  postprocesses : List MaterialId
  enabled_startup_systems : List String
deriving DecidableEq, Repr

/-- The despawn pass at the start of `View::change_view`: every entity
tagged `NonInteractiveText`, `InteractiveText` or `MaterialTestObject` is
destroyed. -/
def despawn_chrome (w : World) : World :=
  { w with ui := [], material_test_objects := 0 }

/-- The ids of the registry entries of a category, in registration order
(the `material_test_id_order` built by the `MaterialSelection` branch of
`change_view`). -/
def selection_order (tests : List MaterialTest) (mt : MaterialType) :
    List MaterialTestId :=
  (tests.filter (fun t => t.material_type = mt)).map (fun t => t.id)

/-- The per-test spawns of the `MaterialSelection` branch of `change_view`:
one selectable label per test, plus the underline under the specified id's
label (or under the first label when no id was specified). -/
def selection_entities : List (Nat × MaterialTest) → MaterialType →
    Option MaterialTestId → List UIEntity
  | [], _, _ => []
  | (index, t) :: rest, mt, specified =>
    .interactive_text t.name (.Material mt t.id) ::
      ((if (match specified with
            | some s => s == t.id
            | none => index == 0 : Bool) then
          [.underline_marker t.name]
        else []) ++ selection_entities rest mt specified)

/-- Embeds `View::change_view` (the transition executor).  A `none` result
models a panic: the only panic site is the `.find(..).unwrap()` of the
`Material` branch when the requested id is absent from a non-empty
registry.  The early `return` of that branch on an empty registry skips
`clear_transitioning_to`, exactly as in the source. -/
def change_view (w : World) : Option World :=
  match w.view.transitioning_to with
  | none => some w
  | some transition_to =>
    let w1 := despawn_chrome w
    match transition_to with
    | .Loading =>
      some { w1 with
        view := { w1.view with
          esc_transition := none, transitioning_to := none },
        ui := [.noninteractive_text "Loading..."] }
    | .MainView =>
      some { w1 with
        view := { w1.view with
          esc_transition := none,
          view_state := .MainView .Sprite,
          transitioning_to := none },
        enabled_startup_systems := [],
        postprocesses := [],
        ui := [.noninteractive_text "Choose Material Type:",
          .interactive_text (title_from_material_type .Sprite)
            (.MaterialSelection .Sprite none),
          .interactive_text (title_from_material_type .PostProcessing)
            (.MaterialSelection .PostProcessing none),
          .underline_marker (title_from_material_type .Sprite)] }
    | .MaterialSelection material_type specified_material_test_id =>
      let filtered := w1.tests.filter (fun t => t.material_type = material_type)
      let material_test_id_order := filtered.map (fun t => t.id)
      some { w1 with
        view := { w1.view with
          esc_transition := some .MainView,
          view_state := .MaterialSelection material_type
            (match specified_material_test_id with
             | some specified => some specified
             | none => material_test_id_order.head?)
            material_test_id_order,
          transitioning_to := none },
        enabled_startup_systems := [],
        postprocesses := [],
        ui := .noninteractive_text (title_from_material_type material_type) ::
          selection_entities filtered.enum material_type
            specified_material_test_id }
    | .Material material_type material_test_id =>
      if w1.tests.isEmpty then
        some w1
      else
        match w1.tests.find? (fun t => t.id = material_test_id) with
        | none => none
        | some t =>
          some { w1 with
            view := { w1.view with
              esc_transition := some
                (.MaterialSelection material_type (some material_test_id)),
              view_state := .Material material_test_id t.name,
              transitioning_to := none } }

/-- The per-frame input snapshot (edge-triggered presses), abstracting the
key/button sets of `src/input_handlers.rs`. -/
structure InputState where
  left_pressed : Bool
  right_pressed : Bool
  up_pressed : Bool
  down_pressed : Bool
  select_pressed : Bool
  back_pressed : Bool
deriving DecidableEq, Repr

/-- An input snapshot with no presses. -/
def InputState.none_pressed : InputState :=
  ⟨false, false, false, false, false, false⟩

/-- The select-only input snapshot. -/
def InputState.select_only : InputState :=
  { InputState.none_pressed with select_pressed := true }

/-- The back-only input snapshot. -/
def InputState.back_only : InputState :=
  { InputState.none_pressed with back_pressed := true }

/-- Moves the first underline entity under the given label (the source
moves the first `Underline` entity's transform to the matched label's
position). -/
def set_first_underline : List UIEntity → String → List UIEntity
  | [], _ => []
  | .underline_marker _ :: rest, target => .underline_marker target :: rest
  | e :: rest, target => e :: set_first_underline rest target

/-- True when a selectable (`RegularText` render) with the given label is
currently spawned. -/
def has_selectable_label (ui : List UIEntity) (target : String) : Bool :=
  ui.any fun e =>
    match e with
    | .interactive_text label _ => label == target
    | _ => false

/-- The underline relocation of `handle_inputs`: if some selectable's text
equals the target, move the first underline under it; otherwise nothing
changes. -/
def relocate_underline (ui : List UIEntity) (target : String) :
    List UIEntity :=
  if has_selectable_label ui target then set_first_underline ui target
  else ui

/-- Embeds the `handle_inputs` system.  A `none` result models a panic; the
panic sites are the `unwrap`s of the `MaterialSelection` arm: select (or a
direction press) with `selected = None` while the id list is non-empty,
a selected id absent from the id list, and a selected id absent from the
registry. -/
def handle_inputs (input : InputState) (w : World) : Option World :=
  match w.view.view_state with
  | .Loading => some w
  | .MainView material_types =>
    if input.select_pressed then
      some { w with view :=
        w.view.set_transition_to (.MaterialSelection material_types none) }
    else if input.left_pressed && input.right_pressed then
      some w
    else if input.left_pressed || input.right_pressed then
      let new_material_type := match material_types with
        | .Sprite => MaterialType.PostProcessing
        | .PostProcessing => MaterialType.Sprite
      some { w with
        view := { w.view with view_state := .MainView new_material_type },
        ui := relocate_underline w.ui
          (title_from_material_type new_material_type) }
    else
      some w
  | .MaterialSelection material_type material_test_id material_id_order =>
    if input.back_pressed then
      match w.view.esc_transition with
      | none => some w
      | some esc_transition =>
        some { w with view := w.view.set_transition_to esc_transition }
    else if input.select_pressed && !material_id_order.isEmpty then
      match material_test_id with
      | none => none
      | some selected_id =>
        match w.tests.find? (fun t => t.id = selected_id) with
        | none => none
        | some t =>
          some { w with
            view := w.view.set_transition_to
              (.Material material_type selected_id),
            enabled_startup_systems :=
              w.enabled_startup_systems ++ [t.startup_system_name] }
    else
      let lr := if input.left_pressed && input.right_pressed then
          (false, false)
        else (input.left_pressed, input.right_pressed)
      let ud := if input.up_pressed && input.down_pressed then
          (false, false)
        else (input.up_pressed, input.down_pressed)
      if !material_id_order.isEmpty &&
          (lr.1 || lr.2 || ud.1 || ud.2) then
        match material_test_id with
        | none => none
        | some selected_id =>
          match material_id_order.findIdx? (fun x => x == selected_id) with
          | none => none
          | some current_index =>
            let index_shift : Int :=
              (if lr.1 then -1 else if lr.2 then 1 else 0) +
                (if ud.1 then -2 else if ud.2 then 2 else 0)
            let new_index :=
              wrap_index ((current_index : Int) + index_shift)
                material_id_order.length
            match material_id_order[new_index]? with
            | none => none
            | some selected_material_test_id =>
              match w.tests.find?
                  (fun t => t.id = selected_material_test_id) with
              | none => none
              | some t =>
                some { w with
                  view := { w.view with
                    view_state := ViewState.MaterialSelection material_type
                      (some selected_material_test_id) material_id_order },
                  ui := relocate_underline w.ui t.name }
      else
        some w
  | .Material _ _ =>
    if input.back_pressed then
      match w.view.esc_transition with
      | none => some w
      | some esc_transition =>
        some { w with view := w.view.set_transition_to esc_transition }
    else
      some w

/-- One interaction frame: route the input, then execute the pending
transition (the source schedules `view_system` right after a transition
request is set). -/
def press (input : InputState) (w : World) : Option World :=
  (handle_inputs input w).bind change_view

/-- The readiness oracles of the three external asset managers, plus the
pipeline lookup `get_pipeline_id_from_material_id`. -/
structure AssetManagers where
  texture_loaded : TextureId → Bool
  text_loaded : TextId → Bool
  pipeline_id_from_material_id : MaterialId → Option PipelineId
  pipeline_loaded : PipelineId → Bool

/-- The state read and written by the `handle_assets_loaded` system: the
`View` resource, the three in-flight marker entity sets, and the system's
own enabled flag. -/
structure LoadWorld where
  view : View
  material_assets : List MaterialId
  material_text_assets : List TextId
  material_texture_assets : List TextureId
  handle_assets_loaded_enabled : Bool
deriving DecidableEq, Repr

/-- The readiness condition of `handle_assets_loaded`: all tracked texture
ids loaded, all tracked text ids loaded, at least one pipeline id resolved
from the tracked material ids, and all those pipeline ids loaded. -/
def assets_ready (am : AssetManagers) (w : LoadWorld) : Bool :=
  let pipeline_ids :=
    w.material_assets.filterMap am.pipeline_id_from_material_id
  w.material_texture_assets.all am.texture_loaded &&
    w.material_text_assets.all am.text_loaded &&
    !pipeline_ids.isEmpty &&
    pipeline_ids.all am.pipeline_loaded

/-- Embeds the body of the `handle_assets_loaded` system: when ready,
request `MainView` (or the one-shot `post_load_transition` override), reset
the override, despawn every marker entity and disable the system itself. -/
def handle_assets_loaded (am : AssetManagers) (w : LoadWorld) : LoadWorld :=
  if assets_ready am w then
    { w with
      view := { w.view with
        transitioning_to := some
          (match w.view.post_load_transition with
           | some transition_to => transition_to
           | none => .MainView),
        post_load_transition := none },
      material_assets := [],
      material_text_assets := [],
      material_texture_assets := [],
      handle_assets_loaded_enabled := false }
  else
    w

/-- One scheduler step of the load gate: the system body runs only while
its enabled flag is set. -/
def load_gate_step (am : AssetManagers) (w : LoadWorld) : LoadWorld :=
  if w.handle_assets_loaded_enabled then handle_assets_loaded am w else w

/-- Bounds-checked list write, modelling Rust's panicking index assignment
`output[index] = value`. -/
def set_checked (out : List α) (i : Nat) (v : α) : Option (List α) :=
  if i < out.length then some (out.set i v) else none

/-- Embeds `array_from_iterator` from `src/array.rs`: start from an array
of `n` default values, take the first `n` iterator items, and write each at
its enumeration index.  A `none` result would model an out-of-bounds panic
of the index assignment. -/
def array_from_iterator (d : α) (n : Nat) (items : List α) :
    Option (List α) :=
  (items.take n).enum.foldlM
    (fun out iv => set_checked out iv.1 iv.2) (List.replicate n d)

/-- Modelled from the spec: the spec's resolution rule for the initially
highlighted id of a selection view — `maybe_selected` if provided and still
present in `ordered_ids`, else the first id in the list.  Stated for
comparison against the resolution actually performed by `change_view`. -/
def spec_resolved_selected (maybe_selected : Option MaterialTestId)
    (ordered_ids : List MaterialTestId) : Option MaterialTestId :=
  match maybe_selected with
  | some s => if s ∈ ordered_ids then some s else ordered_ids.head?
  | none => ordered_ids.head?

/-- A sample registered Sprite test with id 0. -/
def test0 : MaterialTest :=
  { id := ⟨0⟩, name := "test zero", maybe_loaded_materials := [],
    material_type := .Sprite, startup_system_name := "test_zero_startup" }

/-- A sample registered PostProcessing test with id 0. -/
def testP : MaterialTest :=
  { id := ⟨0⟩, name := "post test", maybe_loaded_materials := [],
    material_type := .PostProcessing,
    startup_system_name := "post_test_startup" }

/-- An empty world template. -/
def base_world : World :=
  { view := View.default_view, tests := [], ui := [],
    material_test_objects := 0, postprocesses := [],
    enabled_startup_systems := [] }

/-- A world with a non-empty registry and a pending `Material` transition
whose test id (5) is absent from the registry. -/
def cw_material_missing : World :=
  { base_world with
    view := { View.default_view with
      transitioning_to := some (.Material .Sprite ⟨5⟩) },
    tests := [test0] }

/-- A world in a `MaterialSelection` view whose selected id is `none` while
the id list is non-empty. -/
def cw_select_none : World :=
  { base_world with
    view := { View.default_view with
      transitioning_to := none,
      view_state := .MaterialSelection .Sprite none [⟨0⟩] },
    tests := [test0] }

/-- A world in a `MaterialSelection` view whose selected id (7) is absent
from the registry. -/
def cw_select_absent : World :=
  { base_world with
    view := { View.default_view with
      transitioning_to := none,
      view_state := .MaterialSelection .Sprite (some ⟨7⟩) [⟨7⟩] },
    tests := [test0] }

/-- A world with a pending `MaterialSelection` transition that specifies an
id (5) absent from the registry (which only holds id 0). -/
def cw_selection_spec : World :=
  { base_world with
    view := { View.default_view with
      transitioning_to := some (.MaterialSelection .Sprite (some ⟨5⟩)) },
    tests := [test0] }

/-- A world with an empty registry and a pending `Material` transition. -/
def cw_pending_material_empty : World :=
  { base_world with
    view := { View.default_view with
      transitioning_to := some (.Material .Sprite ⟨0⟩) } }

/-- A world sitting in `MainView(PostProcessing)` with one registered
PostProcessing test. -/
def cw_mainview_pp : World :=
  { base_world with
    view := { View.default_view with
      transitioning_to := none,
      view_state := .MainView .PostProcessing },
    tests := [testP] }

/-- A world sitting in `MainView(Sprite)` with one registered Sprite
test. -/
def cw_mainview_sprite : World :=
  { base_world with
    view := { View.default_view with
      transitioning_to := none,
      view_state := .MainView .Sprite },
    tests := [test0] }

/-- A world sitting in a `Material` view with no escape transition set. -/
def cw_material_state : World :=
  { base_world with
    view := { View.default_view with
      transitioning_to := none,
      view_state := .Material ⟨0⟩ "test zero" },
    tests := [test0] }

/-- The world produced by executing the pending `Material` transition of
`cw_pending_material_empty` (the defensive empty-registry no-op). -/
def cw3w : World := despawn_chrome cw_pending_material_empty

/-- Asset managers that report everything loaded and resolve each material
id to the pipeline of the same number. -/
def am_all_ready : AssetManagers :=
  { texture_loaded := fun _ => true, text_loaded := fun _ => true,
    pipeline_id_from_material_id := fun m => some ⟨m.id⟩,
    pipeline_loaded := fun _ => true }

/-- A load-gate world with one in-flight marker of each kind and a pending
override transition. -/
def lw_ex : LoadWorld :=
  { view := { View.default_view with
      post_load_transition := some (.Material .Sprite ⟨0⟩) },
    material_assets := [⟨4⟩], material_text_assets := [⟨2⟩],
    material_texture_assets := [⟨3⟩], handle_assets_loaded_enabled := true }

/-- A sample already-resolved load slot. -/
def resolved_slot : MaybeLoadedMaterial :=
  { material_type := .Sprite, material_id := some ⟨3⟩, text_id := ⟨2⟩ }

/-- A sample test whose only slot is already resolved. -/
def resolved_test : MaterialTest :=
  { test0 with maybe_loaded_materials := [resolved_slot] }

theorem neg_lt_tmod (a : Int) {b : Int} (h : 0 < b) : -b < a.tmod b := by
  rcases a with m | m
  · calc -b < 0 := by omega
      _ ≤ (Int.ofNat m).tmod b := Int.tmod_nonneg b (Int.ofNat_nonneg m)
  · rcases b with n | n
    · rw [Int.ofNat_eq_natCast] at h
      have hn : 0 < n := by omega
      have hm : (m + 1) % n < n := Nat.mod_lt _ hn
      have he : (Int.negSucc m).tmod (Int.ofNat n)
          = -((((m + 1) % n : Nat) : Int)) := rfl
      rw [he, Int.ofNat_eq_natCast]
      omega
    · cases h

theorem tmod_add_self_tmod_eq_emod (a : Int) {n : Int} (hn : 0 < n) :
    ((a.tmod n) + n).tmod n = a % n := by
  have h1 : -n < a.tmod n := neg_lt_tmod a hn
  have h3 : (0 : Int) ≤ a.tmod n + n := by omega
  rw [Int.tmod_eq_emod h3 (Int.le_of_lt hn)]
  have h4 : (a.tmod n + n) % n = (a.tmod n) % n := by
    have := Int.add_mul_emod_self_left (a.tmod n) n 1
    rw [Int.mul_one] at this
    exact this
  rw [h4]
  calc (a.tmod n) % n
      = (a.tmod n + n * (a.tdiv n)) % n :=
        (Int.add_mul_emod_self_left _ _ _).symm
    _ = a % n := by rw [Int.tmod_add_tdiv]

theorem wrap_index_eq_emod (index : Int) (n : Nat) (hn : 0 < n) :
    wrap_index index n = (index % (n : Int)).toNat := by
  unfold wrap_index
  rw [tmod_add_self_tmod_eq_emod index (by exact_mod_cast hn)]

/-- C6: for any list length `n ≥ 1`, any starting index `i < n` and any
delta `d`, `wrap_index` computes the mathematical-modulo formula
`((i + d) mod n + n) mod n`, the result is below `n`, and applying delta
`d` and then `-d` returns to `i`. -/
theorem wrap_index_law (n i : Nat) (d : Int) (hn : 1 ≤ n) (hi : i < n) :
    ((wrap_index ((i : Int) + d) n : Int)
        = (((i : Int) + d) % (n : Int) + (n : Int)) % (n : Int))
    ∧ wrap_index ((i : Int) + d) n < n
    ∧ wrap_index ((wrap_index ((i : Int) + d) n : Int) + (-d)) n = i := by
  have hn' : (0 : Int) < (n : Int) := by exact_mod_cast hn
  have e1 : wrap_index ((i : Int) + d) n = (((i : Int) + d) % (n : Int)).toNat :=
    wrap_index_eq_emod _ _ hn
  have hnn : 0 ≤ ((i : Int) + d) % (n : Int) :=
    Int.emod_nonneg _ (by omega)
  have hlt : ((i : Int) + d) % (n : Int) < (n : Int) :=
    Int.emod_lt_of_pos _ hn'
  refine ⟨?_, ?_, ?_⟩
  · rw [e1, Int.toNat_of_nonneg hnn]
    have h5 : (((i : Int) + d) % (n : Int) + (n : Int)) % (n : Int)
        = (((i : Int) + d) % (n : Int)) % (n : Int) := by
      have := Int.add_mul_emod_self_left (((i : Int) + d) % (n : Int))
        (n : Int) 1
      rw [Int.mul_one] at this
      exact this
    rw [h5, Int.emod_emod_of_dvd _ dvd_rfl]
  · rw [e1]
    omega
  · rw [e1, Int.toNat_of_nonneg hnn, wrap_index_eq_emod _ _ hn,
      Int.emod_add_emod]
    have h6 : (i : Int) + d + -d = (i : Int) := by ring
    rw [h6, Int.emod_eq_of_lt (by omega) (by omega)]
    omega

theorem wrap_index_law_witness :
    1 ≤ 5 ∧ (0 : Nat) < 5
    ∧ wrap_index (((0 : Nat) : Int) + 2) 5 < 5
    ∧ wrap_index (((0 : Nat) : Int) + 2) 5 = 2 :=
  ⟨by decide, by decide, (wrap_index_law 5 0 2 (by decide) (by decide)).2.1,
    by decide⟩

theorem validate_new_name_spec (h : MaterialTestIdHolder) (d : String) :
    (h.validate_new_name d).2.taken_test_names
        = h.taken_test_names ++ [(h.validate_new_name d).1]
    ∧ (h.validate_new_name d).1 ∉ h.taken_test_names
    ∧ (h.validate_new_name d).2.next_id = h.next_id
    ∧ ∃ k, (h.validate_new_name d).1 = appendZeros d k := by
  induction d using MaterialTestIdHolder.validate_new_name.induct h with
  | case1 d hmem ih =>
    rw [MaterialTestIdHolder.validate_new_name, dif_pos hmem]
    obtain ⟨ih1, ih2, ih3, k, ih4⟩ := ih
    exact ⟨ih1, ih2, ih3, k + 1, ih4⟩
  | case2 d hmem =>
    rw [MaterialTestIdHolder.validate_new_name, dif_neg hmem]
    exact ⟨rfl, hmem, rfl, 0, rfl⟩

theorem claim_names_length (h : MaterialTestIdHolder) (ds : List String) :
    (claim_names h ds).length = ds.length := by
  induction ds generalizing h with
  | nil => rfl
  | cons d ds ih => simp [claim_names, ih]

theorem taken_name_never_returned (h : MaterialTestIdHolder)
    (ds : List String) (s : String) (hs : s ∈ h.taken_test_names) :
    s ∉ claim_names h ds := by
  induction ds generalizing h with
  | nil => simp [claim_names]
  | cons d ds ih =>
    obtain ⟨e1, e2, _, _⟩ := validate_new_name_spec h d
    simp only [claim_names, List.mem_cons, not_or]
    refine ⟨?_, ?_⟩
    · rintro rfl
      exact e2 hs
    · exact ih _ (by rw [e1]; exact List.mem_append_left _ hs)

/-- C7: every sequence of name claims returns pairwise-distinct strings,
each equal to its requested base name with the suffix `"0"` appended zero
or more times, and claiming the base name `"a"` three times on a fresh
registry returns `"a"`, `"a0"`, `"a00"` in order. -/
theorem claim_names_distinct_and_suffixed :
    (∀ (h : MaterialTestIdHolder) (ds : List String),
      (claim_names h ds).Nodup
      ∧ List.Forall₂ (fun d r => ∃ k, r = appendZeros d k) ds
          (claim_names h ds))
    ∧ claim_names MaterialTestIdHolder.default_holder ["a", "a", "a"]
        = ["a", "a0", "a00"] := by
  constructor
  · intro h ds
    induction ds generalizing h with
    | nil => exact ⟨List.nodup_nil, List.Forall₂.nil⟩
    | cons d ds ih =>
      obtain ⟨e1, _, _, hk⟩ := validate_new_name_spec h d
      obtain ⟨ih1, ih2⟩ := ih (h.validate_new_name d).2
      refine ⟨List.nodup_cons.mpr ⟨?_, ih1⟩, List.Forall₂.cons hk ih2⟩
      exact taken_name_never_returned _ _ _
        (by rw [e1]; exact List.mem_append_right _ (List.mem_singleton.mpr rfl))
  · have s1 : MaterialTestIdHolder.validate_new_name ⟨⟨0⟩, []⟩ "a"
        = ("a", ⟨⟨0⟩, ["a"]⟩) := by
      rw [MaterialTestIdHolder.validate_new_name,
        dif_neg (by decide : ¬("a" ∈ ([] : List String)))]
      rfl
    have s2 : MaterialTestIdHolder.validate_new_name ⟨⟨0⟩, ["a"]⟩ "a"
        = ("a0", ⟨⟨0⟩, ["a", "a0"]⟩) := by
      rw [MaterialTestIdHolder.validate_new_name,
        dif_pos (by decide : "a" ∈ ["a"]),
        MaterialTestIdHolder.validate_new_name,
        dif_neg (by decide : ¬("a" ++ "0" ∈ ["a"]))]
      rfl
    have s3 : MaterialTestIdHolder.validate_new_name ⟨⟨0⟩, ["a", "a0"]⟩ "a"
        = ("a00", ⟨⟨0⟩, ["a", "a0", "a00"]⟩) := by
      rw [MaterialTestIdHolder.validate_new_name,
        dif_pos (by decide : "a" ∈ ["a", "a0"]),
        MaterialTestIdHolder.validate_new_name,
        dif_pos (by decide : "a" ++ "0" ∈ ["a", "a0"]),
        MaterialTestIdHolder.validate_new_name,
        dif_neg (by decide : ¬("a" ++ "0" ++ "0" ∈ ["a", "a0"]))]
      rfl
    show claim_names ⟨⟨0⟩, []⟩ ["a", "a", "a"] = ["a", "a0", "a00"]
    rw [claim_names, s1, claim_names, s2, claim_names, s3, claim_names]

theorem issue_ids_from (m : Nat) (names : List String) (n : Nat) :
    issue_ids ⟨⟨m⟩, names⟩ n
      = (List.range n).map (fun j => (⟨m + j⟩ : MaterialTestId)) := by
  induction n generalizing m with
  | zero => rfl
  | succ n ih =>
    rw [issue_ids]
    show (⟨m⟩ : MaterialTestId) :: issue_ids ⟨⟨m + 1⟩, names⟩ n = _
    rw [ih, List.range_succ_eq_map, List.map_cons, List.map_map]
    refine congrArg₂ _ (by rw [Nat.add_zero]) ?_
    refine List.map_congr_left fun j _ => ?_
    show (⟨m + 1 + j⟩ : MaterialTestId) = ⟨m + (j + 1)⟩
    rw [Nat.add_right_comm, Nat.add_assoc]

/-- C8: ids issued by the registry are strictly increasing and never
repeated for any number of registrations, and a fresh registry issues
`0, 1, 2, ...` so the k-th `get_next_id` call returns `k - 1`. -/
theorem issued_ids_strictly_increasing (h : MaterialTestIdHolder) (n : Nat) :
    List.Pairwise (fun a b : MaterialTestId => a.id < b.id) (issue_ids h n)
    ∧ (issue_ids h n).Nodup
    ∧ issue_ids MaterialTestIdHolder.default_holder n
        = (List.range n).map (fun j => (⟨j⟩ : MaterialTestId)) := by
  obtain ⟨⟨m⟩, names⟩ := h
  rw [issue_ids_from]
  have hpw : List.Pairwise (fun a b : MaterialTestId => a.id < b.id)
      ((List.range n).map (fun j => (⟨m + j⟩ : MaterialTestId))) := by
    refine (List.pairwise_map).mpr ?_
    refine List.Pairwise.imp ?_ (List.pairwise_lt_range n)
    intro a b hab
    exact Nat.add_lt_add_left hab m
  refine ⟨hpw, hpw.imp ?_, ?_⟩
  · intro a b hlt
    intro hcontra
    rw [hcontra] at hlt
    exact Nat.lt_irrefl _ hlt
  · show issue_ids ⟨⟨0⟩, []⟩ n = _
    rw [issue_ids_from]
    refine List.map_congr_left fun j _ => ?_
    rw [Nat.zero_add]

theorem update_slots_noop (slots : List MaybeLoadedMaterial)
    (text_id : TextId) (material_id : MaterialId)
    (h : ∀ s ∈ slots, s.text_id = text_id → s.material_id.isSome = true) :
    update_slots slots text_id material_id = slots := by
  induction slots with
  | nil => rfl
  | cons m rest ih =>
    rw [update_slots]
    by_cases hb : m.text_id = MISSING_TEXT_ID ∧ m.material_id = none
    · rw [if_pos hb]
    · rw [if_neg hb]
      refine congrArg₂ _ ?_ (ih fun s hs => h s (List.mem_cons_of_mem _ hs))
      by_cases ht : m.text_id = text_id
      · rw [if_pos ht]
        have hsome := h m (List.mem_cons_self _ _) ht
        rw [MaybeLoadedMaterial.set_material_id, if_pos hsome]
      · rw [if_neg ht]

/-- C9: resolving an already-resolved load slot returns the
`MaterialIdAlreadySet` error and leaves the slot unchanged, and
`update_maybe_loaded_materials` absorbs that error: when every slot
matching the delivered text id is already resolved, the whole update is
the identity. -/
theorem double_resolution_is_noop :
    (∀ (m : MaybeLoadedMaterial) (material_id : MaterialId),
      m.material_id.isSome = true →
        m.set_material_id material_id = .error .mk)
    ∧ (∀ (t : MaterialTest) (text_id : TextId) (material_id : MaterialId),
      (∀ s ∈ t.maybe_loaded_materials, s.text_id = text_id →
        s.material_id.isSome = true) →
      t.update_maybe_loaded_materials text_id material_id = t) := by
  constructor
  · intro m material_id hsome
    rw [MaybeLoadedMaterial.set_material_id, if_pos hsome]
  · intro t text_id material_id h
    rw [MaterialTest.update_maybe_loaded_materials, update_slots_noop _ _ _ h]

theorem double_resolution_is_noop_witness :
    (resolved_slot.material_id.isSome = true
      ∧ resolved_slot.set_material_id ⟨9⟩ = .error .mk)
    ∧ ((∀ s ∈ resolved_test.maybe_loaded_materials, s.text_id = (⟨2⟩ : TextId) →
          s.material_id.isSome = true)
      ∧ resolved_test.update_maybe_loaded_materials ⟨2⟩ ⟨9⟩ = resolved_test) :=
  ⟨⟨by decide, double_resolution_is_noop.1 resolved_slot ⟨9⟩ (by decide)⟩,
    ⟨by decide, double_resolution_is_noop.2 resolved_test ⟨2⟩ ⟨9⟩ (by decide)⟩⟩

theorem take_succ_set (out : List α) (a : α) (k : Nat)
    (hk : k < out.length) :
    (out.set k a).take (k + 1) = out.take k ++ [a] := by
  rw [List.set_eq_take_cons_drop a hk, List.take_append_eq_append_take]
  have hlen : (out.take k).length = k := by
    rw [List.length_take]
    omega
  rw [List.take_take, Nat.min_def, if_neg (by omega), hlen,
    Nat.add_sub_cancel_left, List.take_succ_cons, List.take_zero]

theorem foldlM_set_checked (items : List α) (out : List α) (k : Nat)
    (h : k + items.length ≤ out.length) :
    (items.enumFrom k).foldlM (fun o iv => set_checked o iv.1 iv.2) out
      = some (out.take k ++ items ++ out.drop (k + items.length)) := by
  induction items generalizing out k with
  | nil =>
    rw [List.enumFrom_nil, List.foldlM_nil, List.append_nil,
      List.length_nil, Nat.add_zero, List.take_append_drop]
    rfl
  | cons a rest ih =>
    have hk : k < out.length := by
      rw [List.length_cons] at h
      omega
    rw [List.enumFrom_cons, List.foldlM_cons]
    have hset : set_checked out k a = some (out.set k a) := by
      rw [set_checked, if_pos hk]
    rw [hset]
    show (rest.enumFrom (k + 1)).foldlM
        (fun o iv => set_checked o iv.1 iv.2) (out.set k a) = _
    rw [ih (out.set k a) (k + 1)
      (by rw [List.length_set]; rw [List.length_cons] at h; omega)]
    refine congrArg _ ?_
    rw [take_succ_set out a k hk]
    have hidx : k + (a :: rest).length = k + 1 + rest.length := by
      rw [List.length_cons]
      omega
    rw [hidx, List.drop_set, if_pos (by omega)]
    simp only [List.append_assoc, List.singleton_append, List.cons_append,
      List.nil_append]

/-- C10: `array_from_iterator` is total for every input list: no
out-of-bounds write occurs, and the result has exactly `n` entries, the
first `min (count, n)` being the input items in order and the rest the
default value; items beyond the first `n` are silently discarded. -/
theorem array_from_iterator_total (d : α) (n : Nat) (items : List α) :
    array_from_iterator d n items
      = some (items.take n ++ List.replicate (n - items.length) d)
    ∧ (items.take n ++ List.replicate (n - items.length) d).length = n := by
  constructor
  · rw [array_from_iterator, List.enum_eq_enumFrom]
    rw [foldlM_set_checked (items.take n) (List.replicate n d) 0
      (by rw [List.length_take, List.length_replicate]; omega)]
    rw [List.take_zero, List.nil_append, Nat.zero_add]
    refine congrArg _ (congrArg _ ?_)
    rw [List.drop_replicate, List.length_take]
    refine congrArg₂ _ ?_ rfl
    omega
  · rw [List.length_append, List.length_take, List.length_replicate]
    omega

/-- C5: once the tracked texture, text and pipeline ids are all reported
loaded and at least one pipeline id exists, the load gate opens exactly
once: a transition to `MainView` is requested unless `post_load_transition`
overrides it, the override is reset to `none`, every in-flight marker
entity is despawned, the system disables itself, and a second step changes
nothing. -/
theorem load_gate_opens_once (am : AssetManagers) (w : LoadWorld)
    (hen : w.handle_assets_loaded_enabled = true)
    (hready : assets_ready am w = true) :
    (load_gate_step am w).view.transitioning_to
        = some (match w.view.post_load_transition with
                | some transition_to => transition_to
                | none => .MainView)
    ∧ (load_gate_step am w).view.post_load_transition = none
    ∧ (load_gate_step am w).material_assets = []
    ∧ (load_gate_step am w).material_text_assets = []
    ∧ (load_gate_step am w).material_texture_assets = []
    ∧ (load_gate_step am w).handle_assets_loaded_enabled = false
    ∧ load_gate_step am (load_gate_step am w) = load_gate_step am w := by
  have hstep : load_gate_step am w
      = { w with
          view := { w.view with
            transitioning_to := some
              (match w.view.post_load_transition with
               | some transition_to => transition_to
               | none => .MainView),
            post_load_transition := none },
          material_assets := [],
          material_text_assets := [],
          material_texture_assets := [],
          handle_assets_loaded_enabled := false } := by
    rw [load_gate_step, if_pos hen, handle_assets_loaded, if_pos hready]
  rw [hstep]
  refine ⟨rfl, rfl, rfl, rfl, rfl, rfl, ?_⟩
  rw [load_gate_step, if_neg (by rw [Bool.false_eq_true]; exact fun h => h)]

/-- C2 (amended): executing a `MaterialSelection` transition sets the
initially highlighted id to the provided id unconditionally — even when it
is absent from the recomputed ordered id list — and to the first id of the
list (or `none` when the list is empty) only when no id was provided. -/
theorem selection_selected_resolution (w : World) (mt : MaterialType)
    (spec : Option MaterialTestId)
    (h : w.view.transitioning_to = some (.MaterialSelection mt spec)) :
    (change_view w).map (fun w' => w'.view.view_state)
      = some (.MaterialSelection mt
          (match spec with
           | some s => some s
           | none => (selection_order w.tests mt).head?)
          (selection_order w.tests mt)) := by
  cases spec with
  | some s =>
    simp only [change_view, h, Option.map_some]
    rfl
  | none =>
    simp only [change_view, h, Option.map_some]
    rfl

theorem selection_selected_resolution_witness :
    cw_selection_spec.view.transitioning_to
        = some (.MaterialSelection .Sprite (some ⟨5⟩))
    ∧ (change_view cw_selection_spec).map (fun w' => w'.view.view_state)
        = some (.MaterialSelection .Sprite (some ⟨5⟩)
            (selection_order cw_selection_spec.tests .Sprite)) :=
  ⟨rfl,
    selection_selected_resolution cw_selection_spec .Sprite (some ⟨5⟩) rfl⟩

/-- C2 counterexample: with a registry holding only id 0, executing
`MaterialSelection(Sprite, Some 5)` yields a view whose highlighted id is
`Some 5` even though 5 is not in the recomputed list `[0]` — whereas the
spec's resolution rule would pick the first id 0. -/
theorem selection_resolution_differs_from_spec :
    (change_view cw_selection_spec).map (fun w' => w'.view.view_state)
      = some (.MaterialSelection .Sprite (some ⟨5⟩) [⟨0⟩])
    ∧ spec_resolved_selected (some ⟨5⟩) [⟨0⟩] = some ⟨0⟩
    ∧ some (⟨5⟩ : MaterialTestId) ≠ some (⟨0⟩ : MaterialTestId) := by
  refine ⟨?_, ?_, ?_⟩ <;> decide

/-- C3 (amended): after `change_view` executes a pending transition, the
pending request is cleared for every variant except a `Material` request on
an empty registry, whose defensive early return leaves the request pending;
in every non-panicking case an immediate second call produces no observable
change. -/
theorem execute_pending_clears_request (w : World) (t : TransitionTo)
    (h : w.view.transitioning_to = some t) (w' : World)
    (hw : change_view w = some w') :
    (w'.view.transitioning_to = none
      ∨ (w.tests = [] ∧ (∃ mt tid, t = .Material mt tid)
          ∧ w'.view.transitioning_to = some t))
    ∧ change_view w' = some w' := by
  rcases t with _ | _ | ⟨mt, spec⟩ | ⟨mt, tid⟩
  · simp only [change_view, h] at hw
    obtain rfl := Option.some.inj hw.symm
    exact ⟨Or.inl rfl, rfl⟩
  · simp only [change_view, h] at hw
    obtain rfl := Option.some.inj hw.symm
    exact ⟨Or.inl rfl, rfl⟩
  · simp only [change_view, h] at hw
    obtain rfl := Option.some.inj hw.symm
    exact ⟨Or.inl rfl, rfl⟩
  · have h' : (despawn_chrome w).view.transitioning_to
        = some (.Material mt tid) := h
    cases htests : w.tests with
    | nil =>
      have hempty : (despawn_chrome w).tests.isEmpty = true := by
        simp [despawn_chrome, htests]
      simp only [change_view, h, if_pos hempty] at hw
      obtain rfl := Option.some.inj hw.symm
      refine ⟨Or.inr ⟨rfl, ⟨mt, tid, rfl⟩, h⟩, ?_⟩
      have hempty2 : (despawn_chrome (despawn_chrome w)).tests.isEmpty
          = true := by
        simp [despawn_chrome, htests]
      simp only [change_view, h', if_pos hempty2]
      rfl
    | cons t0 ts =>
      have hne : ¬((despawn_chrome w).tests.isEmpty = true) := by
        simp [despawn_chrome, htests]
      simp only [change_view, h, if_neg hne] at hw
      cases hfind : (despawn_chrome w).tests.find? (fun tt => tt.id = tid) with
      | none =>
        rw [hfind] at hw
        cases hw
      | some tf =>
        rw [hfind] at hw
        obtain rfl := Option.some.inj hw.symm
        exact ⟨Or.inl rfl, rfl⟩

theorem execute_pending_clears_request_witness :
    (cw3w.view.transitioning_to = none
      ∨ (cw_pending_material_empty.tests = []
          ∧ (∃ mt tid, TransitionTo.Material .Sprite ⟨0⟩
              = TransitionTo.Material mt tid)
          ∧ cw3w.view.transitioning_to = some (.Material .Sprite ⟨0⟩)))
    ∧ change_view cw3w = some cw3w :=
  execute_pending_clears_request cw_pending_material_empty
    (.Material .Sprite ⟨0⟩) rfl cw3w rfl

/-- C3 counterexample: executing a pending `Material` transition against an
empty registry leaves the request pending — refuting the claim that the
pending request is cleared for every variant and registry content. -/
theorem pending_request_survives_empty_registry :
    (change_view cw_pending_material_empty).map
        (fun w' => w'.view.transitioning_to)
      = some (some (.Material .Sprite ⟨0⟩))
    ∧ some (TransitionTo.Material .Sprite ⟨0⟩) ≠ (none : Option TransitionTo) := by
  refine ⟨?_, ?_⟩ <;> decide

/-- C4 (amended): from `MainView(X)` with at least one test registered
under X, pressing select yields `MaterialSelection(X, Some(first id under
X), ids under X in registration order)` with the escape transition set to
`MainView`; pressing back then executes the escape transition, which lands
on `MainView(Sprite)` — the first category — regardless of X, so the round
trip returns to the start state only for `X = Sprite`. -/
theorem mainview_select_back_roundtrip (w : World) (mt : MaterialType)
    (h1 : w.view.view_state = .MainView mt)
    (h2 : selection_order w.tests mt ≠ []) :
    ((press InputState.select_only w).map fun w2 =>
        (w2.view.view_state, w2.view.esc_transition))
      = some (.MaterialSelection mt ((selection_order w.tests mt).head?)
            (selection_order w.tests mt), some .MainView)
    ∧ ((press InputState.select_only w).bind
          (press InputState.back_only)).map (fun w4 => w4.view.view_state)
        = some (.MainView .Sprite)
    ∧ ∃ first, (selection_order w.tests mt).head? = some first := by
  have hh : handle_inputs InputState.select_only w
      = some { w with view := w.view.set_transition_to (.MaterialSelection mt none) } := by
    simp [handle_inputs, h1, InputState.select_only, InputState.none_pressed]
  have hc : change_view { w with view := w.view.set_transition_to (.MaterialSelection mt none) }
      = some { w with
          view := { w.view with
            esc_transition := some .MainView,
            view_state := .MaterialSelection mt
              ((selection_order w.tests mt).head?)
              (selection_order w.tests mt),
            transitioning_to := none },
          ui := .noninteractive_text (title_from_material_type mt) ::
            selection_entities
              (w.tests.filter (fun t => t.material_type = mt)).enum mt none,
          material_test_objects := 0,
          postprocesses := [],
          enabled_startup_systems := [] } := by
    simp only [change_view, View.set_transition_to]
    rfl
  have hpress : press InputState.select_only w
      = some { w with
          view := { w.view with
            esc_transition := some .MainView,
            view_state := .MaterialSelection mt
              ((selection_order w.tests mt).head?)
              (selection_order w.tests mt),
            transitioning_to := none },
          ui := .noninteractive_text (title_from_material_type mt) ::
            selection_entities
              (w.tests.filter (fun t => t.material_type = mt)).enum mt none,
          material_test_objects := 0,
          postprocesses := [],
          enabled_startup_systems := [] } := by
    rw [press, hh, Option.some_bind, hc]
  have hback : ((press InputState.select_only w).bind
        (press InputState.back_only)).map (fun w4 => w4.view.view_state)
      = some (.MainView .Sprite) := by
    rw [hpress, Option.some_bind, press]
    have hhb : handle_inputs InputState.back_only { w with
          view := { w.view with
            esc_transition := some .MainView,
            view_state := .MaterialSelection mt
              ((selection_order w.tests mt).head?)
              (selection_order w.tests mt),
            transitioning_to := none },
          ui := .noninteractive_text (title_from_material_type mt) ::
            selection_entities
              (w.tests.filter (fun t => t.material_type = mt)).enum mt none,
          material_test_objects := 0,
          postprocesses := [],
          enabled_startup_systems := [] }
        = some { w with
          view := { w.view with
            esc_transition := some .MainView,
            view_state := .MaterialSelection mt
              ((selection_order w.tests mt).head?)
              (selection_order w.tests mt),
            transitioning_to := some .MainView },
          ui := .noninteractive_text (title_from_material_type mt) ::
            selection_entities
              (w.tests.filter (fun t => t.material_type = mt)).enum mt none,
          material_test_objects := 0,
          postprocesses := [],
          enabled_startup_systems := [] } := by
      simp [handle_inputs, InputState.back_only, InputState.none_pressed,
        View.set_transition_to]
    rw [hhb, Option.some_bind]
    simp only [change_view]
    rfl
  refine ⟨?_, hback, ?_⟩
  · rw [hpress]
    rfl
  · cases hso : selection_order w.tests mt with
    | nil => exact absurd hso h2
    | cons f r => exact ⟨f, by rw [List.head?_cons]⟩

theorem mainview_select_back_roundtrip_witness :
    ((press InputState.select_only cw_mainview_pp).map fun w2 =>
        (w2.view.view_state, w2.view.esc_transition))
      = some (.MaterialSelection .PostProcessing
            ((selection_order cw_mainview_pp.tests .PostProcessing).head?)
            (selection_order cw_mainview_pp.tests .PostProcessing),
          some .MainView)
    ∧ ((press InputState.select_only cw_mainview_pp).bind
          (press InputState.back_only)).map (fun w4 => w4.view.view_state)
        = some (.MainView .Sprite) :=
  ⟨(mainview_select_back_roundtrip cw_mainview_pp .PostProcessing rfl
      (by decide)).1,
    (mainview_select_back_roundtrip cw_mainview_pp .PostProcessing rfl
      (by decide)).2.1⟩

/-- C4 counterexample: starting from `MainView(PostProcessing)`, pressing
select and then back lands on `MainView(Sprite)`, not back on
`MainView(PostProcessing)` — refuting the round-trip claim for every
category X. -/
theorem roundtrip_lands_on_sprite :
    cw_mainview_pp.view.view_state = .MainView .PostProcessing
    ∧ ((press InputState.select_only cw_mainview_pp).bind
          (press InputState.back_only)).map (fun w4 => w4.view.view_state)
        = some (.MainView .Sprite)
    ∧ ViewState.MainView .Sprite ≠ ViewState.MainView .PostProcessing := by
  refine ⟨?_, ?_, ?_⟩ <;> decide

/-- C1 (amended): the error paths the code explicitly guards are non-fatal
logged no-ops — `change_view` with nothing pending, a `Material` transition
on an empty registry (which only performs the despawn pass), and a back
press with no escape transition set in a `MaterialSelection` or `Material`
view — but a `Material` transition naming an id absent from a non-empty
registry, and select pressed in a `MaterialSelection` view whose selected
id is `none` or absent from the registry, panic. -/
theorem guarded_error_paths_are_nonfatal :
    (∀ w : World, w.view.transitioning_to = none → change_view w = some w)
    ∧ (∀ (w : World) (mt : MaterialType) (tid : MaterialTestId),
        w.view.transitioning_to = some (.Material mt tid) → w.tests = [] →
        change_view w = some (despawn_chrome w))
    ∧ (∀ (w : World) (input : InputState) (mt : MaterialType)
        (sel : Option MaterialTestId) (order : List MaterialTestId),
        w.view.view_state = .MaterialSelection mt sel order →
        input.back_pressed = true → w.view.esc_transition = none →
        handle_inputs input w = some w)
    ∧ (∀ (w : World) (input : InputState) (tid : MaterialTestId)
        (nm : String),
        w.view.view_state = .Material tid nm →
        input.back_pressed = true → w.view.esc_transition = none →
        handle_inputs input w = some w) := by
  refine ⟨?_, ?_, ?_, ?_⟩
  · intro w h
    simp [change_view, h]
  · intro w mt tid h1 h2
    simp [change_view, h1, despawn_chrome, h2]
  · intro w input mt sel order h1 h2 h3
    simp [handle_inputs, h1, h2, h3]
  · intro w input tid nm h1 h2 h3
    simp [handle_inputs, h1, h2, h3]

theorem guarded_error_paths_are_nonfatal_witness :
    change_view cw_select_none = some cw_select_none
    ∧ change_view cw_pending_material_empty
        = some (despawn_chrome cw_pending_material_empty)
    ∧ handle_inputs InputState.back_only cw_select_none = some cw_select_none
    ∧ handle_inputs InputState.back_only cw_material_state
        = some cw_material_state :=
  ⟨guarded_error_paths_are_nonfatal.1 cw_select_none rfl,
    guarded_error_paths_are_nonfatal.2.1 cw_pending_material_empty
      .Sprite ⟨0⟩ rfl rfl,
    guarded_error_paths_are_nonfatal.2.2.1 cw_select_none
      InputState.back_only .Sprite none [⟨0⟩] rfl rfl rfl,
    guarded_error_paths_are_nonfatal.2.2.2 cw_material_state
      InputState.back_only ⟨0⟩ "test zero" rfl rfl rfl⟩

/-- C1 counterexample: executing a `Material` transition whose test id (5)
is absent from a non-empty registry panics (`.find(..).unwrap()`), and so
does pressing select in a `MaterialSelection` view whose selected id is
`none` or absent from the registry — refuting the claim that no
lookup-miss is fatal. -/
theorem lookup_miss_panics :
    change_view cw_material_missing = none
    ∧ handle_inputs InputState.select_only cw_select_none = none
    ∧ handle_inputs InputState.select_only cw_select_absent = none := by
  refine ⟨?_, ?_, ?_⟩ <;> decide

theorem load_gate_opens_once_witness :
    lw_ex.handle_assets_loaded_enabled = true
    ∧ assets_ready am_all_ready lw_ex = true
    ∧ (load_gate_step am_all_ready lw_ex).view.transitioning_to
        = some (.Material .Sprite ⟨0⟩)
    ∧ (load_gate_step am_all_ready lw_ex).view.post_load_transition = none
    ∧ (load_gate_step am_all_ready lw_ex).material_assets = [] :=
  ⟨rfl, rfl,
    by
      have h := load_gate_opens_once am_all_ready lw_ex rfl rfl
      exact h.1,
    (load_gate_opens_once am_all_ready lw_ex rfl rfl).2.1,
    (load_gate_opens_once am_all_ready lw_ex rfl rfl).2.2.1⟩

end ShaderTest
